import Mathlib

/-!
Verification of the client-side data-synchronization layer of the
Comparsa / Nosa Terra frontend. Each handler below is a shallow embedding
of the corresponding JavaScript handler: the asynchronous server call is
replaced by an explicit `Except Unit _` argument carrying the response of
the call (or its failure), the `window.confirm` dialog is replaced by an
explicit Boolean argument carrying the answer the dialog would return, and
the pieces of React state a handler touches are passed in and returned
explicitly. Where a handler conditionally issues a network request, the
embedding returns a Boolean flag recording whether the request was sent.
-/

/-- JS String.prototype.trim: drop leading and trailing whitespace.
Implemented structurally over the character list so that it evaluates
inside the kernel. -/
def jsTrim (s : String) : String :=
  String.mk (((s.data.dropWhile Char.isWhitespace).reverse.dropWhile Char.isWhitespace).reverse)

/-- JS String.prototype.split with a single-character separator:
split on each occurrence of the separator, keeping empty segments, and
return the singleton list of the whole input when the input is empty
(matching the JS convention that the empty string splits to one empty
segment). -/
def splitChars (sep : Char) : List Char → List (List Char)
  | [] => [[]]
  | c :: rest =>
    if c = sep then [] :: splitChars sep rest
    else
      match splitChars sep rest with
      | [] => [[c]]
      | h :: t => (c :: h) :: t

/-- Splitting on a character predicate, with the same segment conventions
as `splitChars`. Used only by the spec-worded initials definition. -/
def splitWhen (p : Char → Bool) : List Char → List (List Char)
  | [] => [[]]
  | c :: rest =>
    if p c then [] :: splitWhen p rest
    else
      match splitWhen p rest with
      | [] => [[c]]
      | h :: t => (c :: h) :: t

/-- User record of the admin roster (GET /admin/users). -/
structure AdminUser where
  id : Nat
  name : String
  email : String
  role : String
  created_at : String
deriving DecidableEq

/-- Post record of the feed (GET /posts). -/
structure Post where
  id : Nat
  user_id : Nat
  user_name : String
  user_avatar : String
  content : String
  image_url : String
  category : String
  likes : List Nat
  created_at : String
deriving DecidableEq

/-- Comment record of a post thread (GET /posts/id/comments). -/
structure Comment where
  id : Nat
  post_id : Nat
  user_id : Nat
  user_name : String
  user_avatar : String
  content : String
deriving DecidableEq

/-- Event record (GET /events). Dates are modelled as integer
timestamps, the value the JS Date comparisons reduce to. -/
structure Event where
  id : Nat
  title : String
  description : String
  location : String
  start_date : Int
  end_date : Int
  category : String
deriving DecidableEq

/-- Attendance record of an event roster (GET /events/id/attendances). -/
structure Attendance where
  id : Nat
  event_id : Nat
  user_id : Nat
  user_name : String
  status : String
deriving DecidableEq

/-- The draft of a new post held by the feed view. -/
structure NewPost where
  content : String
  image_url : String
  category : String
deriving DecidableEq

/-- The feed view state touched by handleCreatePost and handleDeletePost. -/
structure FeedState where
  posts : List Post
  newPost : NewPost
  showNewPost : Bool
deriving DecidableEq

/-- The per-post thread state of the Post component: visibility flag,
cached comment list, displayed count, draft comment, loading flag. -/
structure ThreadState where
  showComments : Bool
  comments : List Comment
  commentsCount : Int
  newComment : String
  loadingComments : Bool
deriving DecidableEq

/-- The per-post like state of the Post component. -/
structure LikeView where
  liked : Bool
  likesCount : Int
deriving DecidableEq

/-- Ascending order on events by start date, the order induced by the JS
comparator subtracting the two start dates. -/
def eventStartLE (a b : Event) : Prop := a.start_date ≤ b.start_date

instance : DecidableRel eventStartLE := fun a b => Int.decLe a.start_date b.start_date

instance : IsTotal Event eventStartLE := ⟨fun a b => Int.le_total a.start_date b.start_date⟩

instance : IsTrans Event eventStartLE := ⟨fun _ _ _ h1 h2 => le_trans h1 h2⟩

/-- Embeds fetchUpcomingEvents of the feed view: filter the fetched
events to those whose end date is strictly after now, sort ascending by
start date (Array.prototype.sort with a numeric comparator is a stable
ascending sort, embedded as insertion sort), keep the first 5. -/
def fetchUpcomingEvents (events : List Event) (now : Int) : List Event :=
  (List.insertionSort eventStartLE (events.filter (fun e => now < e.end_date))).take 5

/-- Embeds handleCreatePost of the feed view: if the trimmed draft
content is empty no request is sent and nothing changes; otherwise the
request is sent, and on success the returned post is prepended and the
draft is reset; on failure only a toast is shown. The first component
records whether the request was sent. -/
def handleCreatePost (result : Except Unit Post) (s : FeedState) : Bool × FeedState :=
  if jsTrim s.newPost.content = "" then (false, s)
  else
    match result with
    | Except.ok p =>
      (true, { s with
        posts := p :: s.posts
        newPost := { content := "", image_url := "", category := "general" }
        showNewPost := false })
    | Except.error _ => (true, s)

/-- Embeds handleDeletePost of the feed view: a declined confirmation
sends no request; on confirmed success the post with the given id is
filtered out of the local list; on failure only a toast is shown. -/
def handleDeletePost (confirmAnswer : Bool) (result : Except Unit Unit) (postId : Nat)
    (s : FeedState) : Bool × FeedState :=
  if !confirmAnswer then (false, s)
  else
    match result with
    | Except.ok _ => (true, { s with posts := s.posts.filter (fun p => p.id ≠ postId) })
    | Except.error _ => (true, s)

/-- Embeds handleLike of the Post component: on success the displayed
count is set to the count in the server response and the liked flag is
negated. -/
def handleLike (serverLikes : Int) (s : LikeView) : LikeView :=
  { likesCount := serverLikes, liked := !s.liked }

/-- Single-user server model for the like endpoint: the server state is
whether the current user has liked the post, and the reported count is
the size of the like set. -/
def serverCount (b : Bool) : Int := if b then 1 else 0

/-- One successful like toggle in the single-user world: the server
flips the membership of the current user and reports the new count,
which the client consumes through handleLike. -/
def likeStep (st : Bool × LikeView) : Bool × LikeView :=
  ((!st.1), handleLike (serverCount (!st.1)) st.2)

/-- A sequence of n successful like toggles. -/
def likeIter : Nat → Bool × LikeView → Bool × LikeView
  | 0, st => st
  | n + 1, st => likeIter n (likeStep st)

/-- Unliked starting point: the post has no likes and the view agrees. -/
def initialLike : Bool × LikeView := (false, { liked := false, likesCount := 0 })

/-- Embeds fetchComments of the Post component: when the cached comment
list is nonempty the visibility flag is toggled and no request is sent;
otherwise the thread is fetched, and on success cached and shown. The
loading flag is set and cleared around the request. -/
def fetchComments (result : Except Unit (List Comment)) (s : ThreadState) : Bool × ThreadState :=
  if s.comments.length > 0 then
    (false, { s with showComments := !s.showComments })
  else
    match result with
    | Except.ok cs => (true, { s with comments := cs, showComments := true, loadingComments := false })
    | Except.error _ => (true, { s with loadingComments := false })

/-- Embeds handleComment of the Post component: a blank draft sends no
request; otherwise the request is sent, and on success the returned
comment is appended, the count incremented and the draft cleared. The
source contains no confirmation dialog on this path. -/
def handleComment (result : Except Unit Comment) (s : ThreadState) : Bool × ThreadState :=
  if jsTrim s.newComment = "" then (false, s)
  else
    match result with
    | Except.ok c =>
      (true, { s with
        comments := s.comments ++ [c]
        commentsCount := s.commentsCount + 1
        newComment := "" })
    | Except.error _ => (true, s)

/-- Embeds handleDeleteComment of the Post component: a declined
confirmation sends no request; on confirmed success the comment is
filtered out and the count decremented. -/
def handleDeleteComment (confirmAnswer : Bool) (result : Except Unit Unit) (commentId : Nat)
    (s : ThreadState) : Bool × ThreadState :=
  if !confirmAnswer then (false, s)
  else
    match result with
    | Except.ok _ =>
      (true, { s with
        comments := s.comments.filter (fun c => c.id ≠ commentId)
        commentsCount := s.commentsCount - 1 })
    | Except.error _ => (true, s)

/-- Role flip of the admin panel: admin becomes member, anything else
becomes admin. -/
def flipRole (currentRole : String) : String :=
  if currentRole = "admin" then "member" else "admin"

/-- Embeds handleToggleRole of the admin panel: a declined confirmation
sends no request; on confirmed success every roster row whose id matches
is patched in place with the flipped role, all other rows and fields are
kept; no roster re-fetch occurs (the new list is computed from the old
one alone). -/
def handleToggleRole (confirmAnswer : Bool) (result : Except Unit Unit) (userId : Nat)
    (currentRole : String) (users : List AdminUser) : Bool × List AdminUser :=
  if !confirmAnswer then (false, users)
  else
    match result with
    | Except.ok _ =>
      (true, users.map (fun u => if u.id = userId then { u with role := flipRole currentRole } else u))
    | Except.error _ => (true, users)

/-- Embeds handleAttendance of the Events component: on success, if the
currently selected event is the one written to, its roster is re-fetched
wholesale (the fresh server read replaces the list); for any other event,
or on failure, the roster list is untouched. The first component records
whether the roster re-fetch was triggered. -/
def handleAttendance (result : Except Unit Unit) (freshRoster : List Attendance)
    (selectedEvent : Option Event) (eventId : Nat) (attendances : List Attendance) :
    Bool × List Attendance :=
  match result with
  | Except.ok _ =>
    match selectedEvent with
    | some ev => if ev.id = eventId then (true, freshRoster) else (false, attendances)
    | none => (false, attendances)
  | Except.error _ => (false, attendances)

/-- Attending count shown by the Events component: the number of roster
rows whose status is attending. -/
def attendingCount (atts : List Attendance) : Nat :=
  (atts.filter (fun a => a.status = "attending")).length

/-- The status indicator of the current user in the Events component:
the first roster row of that user. -/
def userAttendance (uid : Nat) (atts : List Attendance) : Option Attendance :=
  atts.find? (fun a => a.user_id = uid)

/-- Embeds getInitials of the Post and Profile components: split the
name on the space character, take the first character of each segment
(a segment with no first character contributes nothing, as JS join skips
the undefined entries), uppercase, keep the first two characters. Total
by construction. -/
def getInitials (name : String) : String :=
  String.mk ((((splitChars ' ' name.data).filterMap List.head?).map Char.toUpper).take 2)

/-- Modelled from the spec wording of the initials helper: the uppercased
first characters of the whitespace-separated words of the name, in order,
truncated to two. A word is a nonempty run between whitespace characters. -/
def initialsOfWords (name : String) : String :=
  String.mk ((((((splitWhen Char.isWhitespace name.data).filter
    (fun w => !w.isEmpty)).filterMap List.head?).map Char.toUpper)).take 2)

/-- Demo event excluded by the upcoming filter: it ends one tick before now. -/
def evA : Event := ⟨1, "A", "", "", 90, 99, "general"⟩

/-- Demo event ending one tick after now. -/
def evB : Event := ⟨2, "B", "", "", 95, 101, "general"⟩

/-- Demo event ending two ticks after now, earliest start. -/
def evC : Event := ⟨3, "C", "", "", 80, 102, "general"⟩

/-- Demo event ending three ticks after now. -/
def evD : Event := ⟨4, "D", "", "", 97, 103, "general"⟩

/-- Demo event ending four ticks after now. -/
def evE : Event := ⟨5, "E", "", "", 85, 104, "general"⟩

/-- Demo event ending five ticks after now, latest start. -/
def evF : Event := ⟨6, "F", "", "", 99, 105, "general"⟩

/-- The six demo events, in scrambled fetch order, with end dates
now-1, now+1 .. now+5 for now = 100. -/
def demoEvents : List Event := [evA, evF, evC, evB, evE, evD]

/-- The expected sidebar: the five demo events ending after now = 100,
ascending by start date. -/
def demoUpcoming : List Event := [evC, evE, evB, evD, evF]

/-- Demo thread with no comments yet (the state after mount). -/
def demoThread : ThreadState :=
  { showComments := false, comments := [], commentsCount := 0, newComment := "",
    loadingComments := false }

/-- Demo server-returned comment. -/
def demoComment : Comment := ⟨11, 1, 2, "Bea", "", "moi ben"⟩

/-- Demo thread whose whole context is that it was never loaded. -/
def emptyThread : ThreadState :=
  { showComments := false, comments := [], commentsCount := 0, newComment := "",
    loadingComments := false }

/-- Demo thread already loaded once, holding one cached comment. -/
def cachedThread : ThreadState :=
  { showComments := true, comments := [⟨21, 1, 2, "Bea", "", "bo"⟩], commentsCount := 1,
    newComment := "", loadingComments := false }

/-- Demo roster member row. -/
def rosterAna : AdminUser := ⟨1, "Ana", "ana@nosa.gal", "member", "2024"⟩

/-- Demo roster admin row. -/
def rosterBea : AdminUser := ⟨2, "Bea", "bea@nosa.gal", "admin", "2024"⟩

/-- Demo two-row roster with distinct ids. -/
def demoRoster : List AdminUser := [rosterAna, rosterBea]

/-- Demo feed posts for the delete scenario. -/
def dpA : Post := ⟨1, 1, "Ana", "", "un", "", "general", [], "2024"⟩

/-- Second demo feed post, the one deleted. -/
def dpB : Post := ⟨2, 1, "Ana", "", "dous", "", "general", [], "2024"⟩

/-- Third demo feed post. -/
def dpC : Post := ⟨3, 1, "Ana", "", "tres", "", "general", [], "2024"⟩

/-- Demo feed state holding the three posts. -/
def demoFeed : FeedState :=
  { posts := [dpA, dpB, dpC], newPost := { content := "", image_url := "", category := "general" },
    showNewPost := false }

/-- Demo server-created post. -/
def createdPost : Post := ⟨9, 1, "Ana", "", "ola mundo", "", "general", [], "2024"⟩

/-- Demo feed state whose draft content is whitespace only. -/
def draftBlankFeed : FeedState :=
  { posts := [], newPost := { content := "   ", image_url := "", category := "general" },
    showNewPost := true }

/-- Demo feed state with a non-blank draft. -/
def draftFeed : FeedState :=
  { posts := [], newPost := { content := "bos dias", image_url := "", category := "general" },
    showNewPost := true }

/-- Demo event for the attendance scenario. -/
def rsvpEvent : Event := ⟨7, "Ensaio", "", "Local", 0, 10, "rehearsal"⟩

/-- The invariant tying the single-user like server to the Post view:
the liked flag mirrors the membership of the current user and the
displayed count is the reported set size. -/
def likeInv (st : Bool × LikeView) : Prop :=
  st.2.liked = st.1 ∧ st.2.likesCount = serverCount st.1

/-- One successful toggle preserves the like invariant. -/
theorem likeStep_inv (st : Bool × LikeView) (h : likeInv st) : likeInv (likeStep st) := by
  obtain ⟨h1, _⟩ := h
  constructor
  · show (!st.2.liked) = (!st.1)
    rw [h1]
  · rfl

/-- Any number of successful toggles preserves the like invariant. -/
theorem likeIter_inv : ∀ (n : Nat) (st : Bool × LikeView), likeInv st → likeInv (likeIter n st)
  | 0, _, h => h
  | n + 1, st, h => likeIter_inv n (likeStep st) (likeStep_inv st h)

/-- Mapping the row patch over a roster in which the target id appears
nowhere leaves the roster unchanged. -/
theorem map_id_of_not_mem (f : AdminUser → AdminUser) (tid : Nat) :
    ∀ l : List AdminUser, tid ∉ l.map AdminUser.id →
      l.map (fun u => if u.id = tid then f u else u) = l := by
  intro l
  induction l with
  | nil => intro _; rfl
  | cons v rest ih =>
    intro h
    rw [List.map_cons] at h
    have h1 : v.id = tid → False := fun he => h (by rw [← he]; exact List.mem_cons_self _ _)
    rw [List.map_cons, if_neg h1, ih (fun hm => h (List.mem_cons_of_mem _ hm))]

/-- On a roster with pairwise-distinct ids, mapping the row patch keyed
on the id of row i is the same as replacing row i in place. -/
theorem map_patch_eq_set (f : AdminUser → AdminUser) :
    ∀ (users : List AdminUser) (i : Nat) (hi : i < users.length),
      (users.map AdminUser.id).Nodup →
      users.map (fun u => if u.id = (users.get ⟨i, hi⟩).id then f u else u) =
        users.set i (f (users.get ⟨i, hi⟩)) := by
  intro users
  induction users with
  | nil => intro i hi _; exact absurd hi (Nat.not_lt_zero i)
  | cons u rest ih =>
    intro i hi hnodup
    rw [List.map_cons] at hnodup
    have hcons := List.nodup_cons.mp hnodup
    cases i with
    | zero =>
      have hget : (u :: rest).get ⟨0, hi⟩ = u := rfl
      rw [hget, List.map_cons, if_pos rfl, List.set_cons_zero]
      exact congrArg _ (map_id_of_not_mem f u.id rest hcons.1)
    | succ n =>
      have hn : n < rest.length := Nat.lt_of_succ_lt_succ hi
      have hget : (u :: rest).get ⟨n + 1, hi⟩ = rest.get ⟨n, hn⟩ := rfl
      rw [hget, List.map_cons, List.set_cons_succ]
      have hmem : (rest.get ⟨n, hn⟩).id ∈ rest.map AdminUser.id :=
        List.mem_map_of_mem AdminUser.id (List.get_mem rest n hn)
      have hne : u.id = (rest.get ⟨n, hn⟩).id → False :=
        fun he => hcons.1 (by rw [he]; exact hmem)
      rw [if_neg hne]
      exact congrArg _ (ih n hn hcons.2)

/-- C1: the upcoming-events derivation returns only events whose end
date is strictly after now, sorted ascending by start date, at most 5 of
them; whenever at most 5 events survive the filter it returns exactly
those events; and on the six demo events with end dates now-1, now+1 ..
now+5 it shows exactly the five future events ascending by start date. -/
theorem upcoming_events_derivation (events : List Event) (now : Int) :
    (∀ e ∈ fetchUpcomingEvents events now, now < e.end_date) ∧
    List.Sorted eventStartLE (fetchUpcomingEvents events now) ∧
    (fetchUpcomingEvents events now).length ≤ 5 ∧
    ((events.filter (fun e => now < e.end_date)).length ≤ 5 →
      (fetchUpcomingEvents events now).Perm (events.filter (fun e => now < e.end_date))) ∧
    fetchUpcomingEvents demoEvents 100 = demoUpcoming := by
  refine ⟨?_, ?_, ?_, ?_, by decide⟩
  · intro e he
    have h1 : e ∈ List.insertionSort eventStartLE (events.filter (fun e => now < e.end_date)) :=
      List.mem_of_mem_take he
    have h2 : e ∈ events.filter (fun e => now < e.end_date) :=
      (List.perm_insertionSort eventStartLE _).mem_iff.mp h1
    exact of_decide_eq_true (List.mem_filter.mp h2).2
  · exact List.Pairwise.sublist (List.take_sublist 5 _)
      (List.sorted_insertionSort eventStartLE _)
  · exact List.length_take_le 5 _
  · intro h
    have hp := List.perm_insertionSort eventStartLE (events.filter (fun e => now < e.end_date))
    have hlen :
        (List.insertionSort eventStartLE (events.filter (fun e => now < e.end_date))).length ≤ 5 := by
      rw [hp.length_eq]
      exact h
    show (List.take 5 _).Perm _
    rw [List.take_of_length_le hlen]
    exact hp

/-- C1 witness: on the demo events exactly five survive the filter, and
the derivation is a permutation of them. -/
theorem upcoming_events_derivation_witness :
    (fetchUpcomingEvents demoEvents 100).Perm (demoEvents.filter (fun e => 100 < e.end_date)) :=
  (upcoming_events_derivation demoEvents 100).2.2.2.1 (by decide)

/-- C2: the displayed count after a successful like toggle is exactly
the server-reported count, the liked flag is the negation of its
previous value, toggling twice restores the flag, and after any
sequence of successful toggles from the unliked single-user start the
flag matches the parity of the reported count. -/
theorem like_toggle_parity (c c₂ : Int) (s : LikeView) (n : Nat) :
    (handleLike c s).likesCount = c ∧
    (handleLike c s).liked = (!s.liked) ∧
    (handleLike c₂ (handleLike c s)).liked = s.liked ∧
    ((likeIter n initialLike).2.liked = true ↔ (likeIter n initialLike).2.likesCount % 2 = 1) := by
  refine ⟨rfl, rfl, ?_, ?_⟩
  · show (!(!s.liked)) = s.liked
    exact Bool.not_not s.liked
  · obtain ⟨hl, hc⟩ := likeIter_inv n initialLike ⟨rfl, rfl⟩
    rw [hl, hc]
    cases (likeIter n initialLike).1 <;> decide

/-- C2 witness: after two successful toggles from the unliked start the
flag matches the count parity. -/
theorem like_toggle_parity_witness :
    ((likeIter 2 initialLike).2.liked = true ↔ (likeIter 2 initialLike).2.likesCount % 2 = 1) :=
  (like_toggle_parity 0 0 { liked := false, likesCount := 0 } 2).2.2.2

/-- C3: when the server call of a mutation fails, every handler leaves
the local state exactly as it was: create post, add comment, mark
attendance, delete comment, delete post and role toggle all return the
incoming state unchanged on error. -/
theorem mutation_failure_atomicity (s : FeedState) (t : ThreadState)
    (atts fresh : List Attendance) (sel : Option Event) (eid cid pid uid : Nat)
    (role : String) (users : List AdminUser) (conf : Bool) :
    (handleCreatePost (Except.error ()) s).2 = s ∧
    (handleComment (Except.error ()) t).2 = t ∧
    (handleAttendance (Except.error ()) fresh sel eid atts).2 = atts ∧
    (handleDeleteComment conf (Except.error ()) cid t).2 = t ∧
    (handleDeletePost conf (Except.error ()) pid s).2 = s ∧
    (handleToggleRole conf (Except.error ()) uid role users).2 = users := by
  refine ⟨?_, ?_, rfl, ?_, ?_, ?_⟩
  · unfold handleCreatePost
    split <;> rfl
  · unfold handleComment
    split <;> rfl
  · cases conf <;> rfl
  · cases conf <;> rfl
  · cases conf <;> rfl

/-- C4 counterexample: an add-comment request is issued for a non-blank
draft even in an environment where every confirmation dialog would be
declined, so the claim that adding a comment requires a preceding
confirmation is false; the handler never consults a confirmation. -/
theorem comment_confirmation_counterexample :
    ¬ (∀ (confirmAnswer : Bool) (s : ThreadState) (c : Comment),
        (handleComment (Except.ok c) s).1 = true → confirmAnswer = true) := by
  intro h
  exact Bool.false_ne_true
    (h false { demoThread with newComment := "hola" } demoComment (by decide))

/-- C4 amended: deleting a comment requires the confirmation (a declined
dialog sends no request, an accepted one sends it), while adding a
comment is gated only by the non-blank check on the draft. -/
theorem comment_confirmation_amended (s : ThreadState) (r₁ : Except Unit Unit)
    (r₂ : Except Unit Comment) (commentId : Nat) :
    handleDeleteComment false r₁ commentId s = (false, s) ∧
    (handleDeleteComment true r₁ commentId s).1 = true ∧
    ((handleComment r₂ s).1 = true ↔ jsTrim s.newComment ≠ "") := by
  refine ⟨rfl, ?_, ?_⟩
  · cases r₁ <;> rfl
  · unfold handleComment
    by_cases h : jsTrim s.newComment = ""
    · rw [if_pos h]
      simp [h]
    · rw [if_neg h]
      cases r₂ <;> simp [h]

/-- C4 witness: a declined confirmation sends no delete-comment request
and leaves the thread unchanged. -/
theorem comment_confirmation_amended_witness :
    handleDeleteComment false (Except.ok ()) 7 demoThread = (false, demoThread) :=
  (comment_confirmation_amended demoThread (Except.ok ()) (Except.ok demoComment) 7).1

/-- C5 counterexample: a thread loaded once with zero comments is not
recognised as cached (the check is on list length), so the next toggle
issues a network request again, refuting the claim for zero-comment
threads. -/
theorem thread_toggle_counterexample :
    (fetchComments (Except.ok []) ((fetchComments (Except.ok []) emptyThread).2)).1 = true := by
  decide

/-- C5 amended: for every thread whose cache holds at least one comment,
toggling issues no request and only flips the visibility flag, leaving
the cached list and every other field unchanged. -/
theorem thread_toggle_cached_amended (s : ThreadState) (r : Except Unit (List Comment))
    (h : s.comments.length > 0) :
    fetchComments r s = (false, { s with showComments := !s.showComments }) := by
  unfold fetchComments
  rw [if_pos h]

/-- C5 witness: toggling the demo cached thread issues no request and
flips visibility. -/
theorem thread_toggle_cached_amended_witness :
    fetchComments (Except.ok []) cachedThread =
      (false, { cachedThread with showComments := !cachedThread.showComments }) :=
  thread_toggle_cached_amended cachedThread (Except.ok []) (by decide)

/-- C6: on a roster with pairwise-distinct ids, a confirmed successful
role toggle on row i replaces exactly that row in place with its role
flipped and every other field and row unchanged; the flip swaps admin
and member; and a declined confirmation sends no request and changes
nothing. -/
theorem role_toggle_frame (users : List AdminUser) (i : Nat) (hi : i < users.length)
    (hnodup : (users.map AdminUser.id).Nodup) (r : Except Unit Unit) :
    (handleToggleRole true (Except.ok ()) (users.get ⟨i, hi⟩).id
        (users.get ⟨i, hi⟩).role users).2 =
      users.set i { users.get ⟨i, hi⟩ with role := flipRole (users.get ⟨i, hi⟩).role } ∧
    flipRole "admin" = "member" ∧
    flipRole "member" = "admin" ∧
    handleToggleRole false r (users.get ⟨i, hi⟩).id (users.get ⟨i, hi⟩).role users =
      (false, users) := by
  refine ⟨?_, by decide, by decide, rfl⟩
  show users.map (fun u => if u.id = (users.get ⟨i, hi⟩).id then
      { u with role := flipRole (users.get ⟨i, hi⟩).role } else u) = _
  exact map_patch_eq_set (fun u => { u with role := flipRole (users.get ⟨i, hi⟩).role })
    users i hi hnodup

/-- C6 witness: toggling the first row of the demo roster patches that
row in place. -/
theorem role_toggle_frame_witness :
    (handleToggleRole true (Except.ok ()) (demoRoster.get ⟨0, by decide⟩).id
        (demoRoster.get ⟨0, by decide⟩).role demoRoster).2 =
      demoRoster.set 0 { demoRoster.get ⟨0, by decide⟩ with
        role := flipRole (demoRoster.get ⟨0, by decide⟩).role } :=
  (role_toggle_frame demoRoster 0 (by decide) (by decide) (Except.ok ())).1

/-- C7: when the local posts decompose around the unique post carrying
the target id, a confirmed server-acknowledged delete removes exactly
that entry and keeps the others in order; a declined confirmation sends
no request, and a failed delete changes nothing, so removal happens only
after the server confirms. -/
theorem delete_post_removes_one (s : FeedState) (l₁ l₂ : List Post) (p : Post) (postId : Nat)
    (hdecomp : s.posts = l₁ ++ p :: l₂) (hp : p.id = postId)
    (h1 : ∀ q ∈ l₁, q.id ≠ postId) (h2 : ∀ q ∈ l₂, q.id ≠ postId) (r : Except Unit Unit) :
    (handleDeletePost true (Except.ok ()) postId s).2.posts = l₁ ++ l₂ ∧
    handleDeletePost false r postId s = (false, s) ∧
    (handleDeletePost true (Except.error ()) postId s).2 = s := by
  refine ⟨?_, rfl, rfl⟩
  show s.posts.filter (fun q => q.id ≠ postId) = l₁ ++ l₂
  rw [hdecomp, List.filter_append, List.filter_cons_of_neg (by simp [hp])]
  congr 1
  · exact List.filter_eq_self.mpr (fun q hq => decide_eq_true (h1 q hq))
  · exact List.filter_eq_self.mpr (fun q hq => decide_eq_true (h2 q hq))

/-- C7 witness: deleting the middle demo post removes exactly it. -/
theorem delete_post_removes_one_witness :
    (handleDeletePost true (Except.ok ()) 2 demoFeed).2.posts = [dpA] ++ [dpC] :=
  (delete_post_removes_one demoFeed [dpA] [dpC] dpB 2 rfl rfl (by decide) (by decide)
    (Except.ok ())).1

/-- C8: a successful attendance write for the currently selected event
replaces the roster with the fresh server read, so the attending count
and the status indicator of the current user are re-derived from that
fresh read; a write for a different event, or with no event selected, or
a failed write, triggers no re-fetch and leaves the roster untouched. -/
theorem attendance_refetch (fresh atts : List Attendance) (ev : Event) (eventId uid : Nat) :
    handleAttendance (Except.ok ()) fresh (some ev) ev.id atts = (true, fresh) ∧
    attendingCount (handleAttendance (Except.ok ()) fresh (some ev) ev.id atts).2 =
      attendingCount fresh ∧
    userAttendance uid (handleAttendance (Except.ok ()) fresh (some ev) ev.id atts).2 =
      userAttendance uid fresh ∧
    (ev.id ≠ eventId → handleAttendance (Except.ok ()) fresh (some ev) eventId atts =
      (false, atts)) ∧
    handleAttendance (Except.ok ()) fresh none eventId atts = (false, atts) ∧
    handleAttendance (Except.error ()) fresh (some ev) eventId atts = (false, atts) := by
  have hmain : handleAttendance (Except.ok ()) fresh (some ev) ev.id atts = (true, fresh) := by
    show (if ev.id = ev.id then ((true, fresh) : Bool × List Attendance) else (false, atts)) =
      (true, fresh)
    rw [if_pos rfl]
  refine ⟨hmain, by rw [hmain], by rw [hmain], ?_, rfl, rfl⟩
  intro h
  show (if ev.id = eventId then ((true, fresh) : Bool × List Attendance) else (false, atts)) =
    (false, atts)
  rw [if_neg h]

/-- C8 witness: an attendance write for an event other than the selected
demo event triggers no roster re-fetch. -/
theorem attendance_refetch_witness :
    handleAttendance (Except.ok ()) [] (some rsvpEvent) 999 [] = (false, []) :=
  (attendance_refetch [] [] rsvpEvent 999 0).2.2.2.1 (by decide)

/-- C9: a blank (empty or whitespace-only) draft sends no create-post
request and changes nothing, while a non-blank draft accepted by the
server prepends the returned post with all previous posts following
unchanged. -/
theorem create_post_guard_prepend (s : FeedState) (p : Post) (r : Except Unit Post) :
    (jsTrim s.newPost.content = "" → handleCreatePost r s = (false, s)) ∧
    (jsTrim s.newPost.content ≠ "" →
      (handleCreatePost (Except.ok p) s).1 = true ∧
      (handleCreatePost (Except.ok p) s).2.posts = p :: s.posts) := by
  constructor
  · intro h
    unfold handleCreatePost
    rw [if_pos h]
  · intro h
    unfold handleCreatePost
    rw [if_neg h]
    exact ⟨rfl, rfl⟩

/-- C9 witness: the whitespace-only demo draft sends nothing, and the
non-blank demo draft prepends the created post. -/
theorem create_post_guard_prepend_witness :
    handleCreatePost (Except.ok createdPost) draftBlankFeed = (false, draftBlankFeed) ∧
    (handleCreatePost (Except.ok createdPost) draftFeed).2.posts =
      createdPost :: draftFeed.posts :=
  ⟨(create_post_guard_prepend draftBlankFeed createdPost (Except.ok createdPost)).1 (by decide),
   ((create_post_guard_prepend draftFeed createdPost (Except.ok createdPost)).2 (by decide)).2⟩

/-- C10 counterexample: the code splits the name on the space character
only, so a tab-separated name yields one initial where the
whitespace-separated-words reading of the claim yields two. -/
theorem initials_whitespace_counterexample :
    getInitials "a\tb" = "A" ∧ initialsOfWords "a\tb" = "AB" ∧
    getInitials "a\tb" ≠ initialsOfWords "a\tb" := by
  refine ⟨by decide, by decide, by decide⟩

/-- C10 amended: getInitials is total by construction, always returns at
most two characters, and equals the uppercased first characters of the
space-separated segments truncated to two: the empty name gives the
empty string, a single word gives its first letter, several words give
the first two initials in order, and consecutive spaces contribute
nothing. -/
theorem initials_total_bounded (name : String) :
    (getInitials name).length ≤ 2 ∧
    getInitials "" = "" ∧
    getInitials "ana" = "A" ∧
    getInitials "ana bel cruz" = "AB" ∧
    getInitials "a  b" = "AB" := by
  refine ⟨?_, by decide, by decide, by decide, by decide⟩
  show (String.mk ((((splitChars ' ' name.data).filterMap List.head?).map Char.toUpper).take 2)).length ≤ 2
  exact List.length_take_le 2 _
